import Mathlib

-- Verification of the address-book program in final.py.
-- The data model and operations below are shallow embeddings of the Python
-- source: regexes become a small pattern matcher, datetime values become
-- explicit year/month/day(/seconds) structures, mutation becomes state
-- passing, and a raised exception becomes an explicit error value.

set_option autoImplicit false

-- ### Characters and digit strings

-- Models the character class \d restricted to the ASCII digits 0-9.
def isDig (c : Char) : Bool := decide (48 ≤ c.toNat ∧ c.toNat ≤ 57)

-- Numeric value of a single ASCII digit character.
def digitVal (c : Char) : Nat := c.toNat - 48

-- Numeric value of a digit string read left to right, as int() would give.
def digitsVal (cs : List Char) : Nat := cs.foldl (fun a c => 10 * a + digitVal c) 0

-- ### A small regex fragment
-- Enough to express the two patterns of the source:
--   r"\d{10}"  and  r"[^@]+@[^@]+\.[^@]+"  matched with re.fullmatch.

inductive RElem where
  | exactly : (Char → Bool) → Nat → RElem
  | plus : (Char → Bool) → RElem
  | lit : Char → RElem

-- Full-string matching of a sequence of pattern elements.
def fullmatch : List RElem → List Char → Bool
  | [], cs => cs.isEmpty
  | RElem.exactly p n :: es, cs =>
      decide (n ≤ cs.length) && (cs.take n).all p && fullmatch es (cs.drop n)
  | RElem.lit c :: es, cs =>
      match cs with
      | [] => false
      | c2 :: rest => c == c2 && fullmatch es rest
  | RElem.plus p :: es, cs =>
      (List.range cs.length).any
        (fun i => (cs.take (i + 1)).all p && fullmatch es (cs.drop (i + 1)))

-- ### Phone: re.fullmatch(r"\d{10}", value)

def phone_regex : List RElem := [RElem.exactly isDig 10]

def Phone.validate (v : String) : Bool := fullmatch phone_regex v.data

def phone_error_msg : String := "Invalid phone number format. It should be 10 digits."

-- Phone(value): the validated value, or the ValueError message.
def mkPhone (v : String) : Except String String :=
  if Phone.validate v then Except.ok v else Except.error phone_error_msg

-- ### Email: re.fullmatch(r"[^@]+@[^@]+\.[^@]+", value)

def notAt (c : Char) : Bool := c != '@'

def email_regex : List RElem :=
  [RElem.plus notAt, RElem.lit '@', RElem.plus notAt, RElem.lit '.', RElem.plus notAt]

def Email.validate (v : String) : Bool := fullmatch email_regex v.data

def email_error_msg : String := "Invalid email format."

def mkEmail (v : String) : Except String String :=
  if Email.validate v then Except.ok v else Except.error email_error_msg

-- ### Calendar dates

def isLeapYear (y : Nat) : Bool := y % 4 == 0 && (y % 100 != 0 || y % 400 == 0)

def daysInMonth (y m : Nat) : Nat :=
  if m == 2 then (if isLeapYear y then 29 else 28)
  else if m == 4 || m == 6 || m == 9 || m == 11 then 30
  else 31

-- The date stored inside a Birthday (the datetime is always at midnight).
structure BDate where
  year : Nat
  month : Nat
  day : Nat
deriving DecidableEq, Repr

-- Days in year y before the first of month m (proleptic Gregorian).
def daysBeforeMonth (y m : Nat) : Nat :=
  match m with
  | 0 => 0
  | Nat.succ k => daysBeforeMonth y k + (if k == 0 then 0 else daysInMonth y k)

-- Proleptic Gregorian ordinal of a date, as date.toordinal() computes it.
def toOrdinal (y m d : Nat) : Nat :=
  365 * (y - 1) + (y - 1) / 4 + (y - 1) / 400 - (y - 1) / 100 + daysBeforeMonth y m + d

-- A Python datetime: a calendar date plus seconds elapsed since midnight.
structure PDateTime where
  year : Nat
  month : Nat
  day : Nat
  sod : Nat
deriving DecidableEq, Repr

-- Timestamp in seconds; Python datetime comparison and timedelta addition
-- agree with plain arithmetic on this value.
def PDateTime.ts (t : PDateTime) : Nat := toOrdinal t.year t.month t.day * 86400 + t.sod

-- datetime.replace(year=y): fails (ValueError) when the month/day do not
-- exist in year y, which for a stored valid date means Feb 29 off-leap-year.
def replaceYear (b : BDate) (y : Nat) : Option BDate :=
  if b.day ≤ daysInMonth y b.month then some { year := y, month := b.month, day := b.day }
  else none

-- ### Birthday: datetime.strptime(value, "%d.%m.%Y")
-- CPython compiles this format to the anchored regex
--   (3[01]|[12]\d|0[1-9]|[1-9]) \. (1[0-2]|0[1-9]|[1-9]) \. (\d\d\d\d)
-- and then builds the datetime, which further requires a valid calendar
-- date with year at least 1.  Since the groups are dot-free digit runs,
-- splitting the input on "." decomposes exactly as the regex does.

-- Group (3[01]|[12]\d|0[1-9]|[1-9]) for %d, with its numeric value.
def dayShapeVal (cs : List Char) : Option Nat :=
  match cs with
  | [c] => if isDig c && c != '0' then some (digitVal c) else none
  | [c1, c2] =>
      if (c1 == '3' && (c2 == '0' || c2 == '1'))
         || ((c1 == '1' || c1 == '2') && isDig c2)
         || (c1 == '0' && isDig c2 && c2 != '0')
      then some (10 * digitVal c1 + digitVal c2) else none
  | _ => none

-- Group (1[0-2]|0[1-9]|[1-9]) for %m, with its numeric value.
def monthShapeVal (cs : List Char) : Option Nat :=
  match cs with
  | [c] => if isDig c && c != '0' then some (digitVal c) else none
  | [c1, c2] =>
      if (c1 == '1' && (c2 == '0' || c2 == '1' || c2 == '2'))
         || (c1 == '0' && isDig c2 && c2 != '0')
      then some (10 * digitVal c1 + digitVal c2) else none
  | _ => none

-- Group (\d\d\d\d) for %Y, with its numeric value.
def yearShapeVal (cs : List Char) : Option Nat :=
  match cs with
  | [c1, c2, c3, c4] =>
      if isDig c1 && isDig c2 && isDig c3 && isDig c4
      then some (digitsVal [c1, c2, c3, c4]) else none
  | _ => none

-- Split a character list at every literal dot, like str.split(".").
def splitDots : List Char → List (List Char)
  | [] => [[]]
  | c :: rest =>
      match splitDots rest with
      | [] => [[c]]
      | g :: gs => if c == '.' then [] :: g :: gs else (c :: g) :: gs

-- The regex phase of strptime on "%d.%m.%Y": day, month, year values.
def strptime_dmY (s : String) : Option (Nat × Nat × Nat) :=
  match splitDots s.data with
  | [ds, ms, ys] =>
      match dayShapeVal ds, monthShapeVal ms, yearShapeVal ys with
      | some d, some m, some y => some (d, m, y)
      | _, _, _ => none
  | _ => none

-- datetime(y, m, d) construction succeeds for these values.
def datetime_valid (y m d : Nat) : Bool :=
  decide (1 ≤ y) && decide (y ≤ 9999) && decide (1 ≤ m) && decide (m ≤ 12)
    && decide (1 ≤ d) && decide (d ≤ daysInMonth y m)

def birthday_error_msg : String := "Invalid date format. Use DD.MM.YYYY"

-- Birthday(value): the parsed date, or the fixed ValueError message the
-- constructor substitutes for any parse failure.
def mkBirthday (v : String) : Except String BDate :=
  match strptime_dmY v with
  | some (d, m, y) =>
      if datetime_valid y m d then Except.ok { year := y, month := m, day := d }
      else Except.error birthday_error_msg
  | none => Except.error birthday_error_msg

-- ### Record: one contact
-- Field wrappers hold only their string value, so phones and emails are
-- stored as the validated strings; the birthday is the parsed date.

structure Record where
  name : String
  phones : List String
  emails : List String
  birthday : Option BDate
deriving DecidableEq, Repr

-- Record(name)
def Record.init (n : String) : Record :=
  { name := n, phones := [], emails := [], birthday := none }

-- find_phone: first phone whose value equals the argument.
def Record.find_phone (r : Record) (p : String) : Option String :=
  r.phones.find? (fun q => q == p)

-- add_phone: validate, then append; on failure the record is unchanged and
-- the ValueError message escapes.
def Record.add_phone (r : Record) (p : String) : Record × Option String :=
  if Phone.validate p then ({ r with phones := r.phones ++ [p] }, none)
  else (r, some phone_error_msg)

-- remove_phone: drop the object found by find_phone, i.e. the first phone
-- with that value; silently do nothing when absent.
def Record.remove_phone (r : Record) (p : String) : Record :=
  match r.find_phone p with
  | none => r
  | some _ => { r with phones := r.phones.erase p }

-- edit_phone: remove the old phone first, then validate-and-append the new
-- one; the removal is not rolled back when validation fails.
def Record.edit_phone (r : Record) (o n : String) : Record × Option String :=
  match r.find_phone o with
  | none => (r, none)
  | some _ => Record.add_phone { r with phones := r.phones.erase o } n

def Record.find_email (r : Record) (e : String) : Option String :=
  r.emails.find? (fun q => q == e)

def Record.add_email (r : Record) (e : String) : Record × Option String :=
  if Email.validate e then ({ r with emails := r.emails ++ [e] }, none)
  else (r, some email_error_msg)

def Record.remove_email (r : Record) (e : String) : Record :=
  match r.find_email e with
  | none => r
  | some _ => { r with emails := r.emails.erase e }

def Record.edit_email (r : Record) (o n : String) : Record × Option String :=
  match r.find_email o with
  | none => (r, none)
  | some _ => Record.add_email { r with emails := r.emails.erase o } n

-- add_birthday: validate and set/overwrite the single birthday.
def Record.add_birthday (r : Record) (v : String) : Record × Option String :=
  match mkBirthday v with
  | Except.ok d => ({ r with birthday := some d }, none)
  | Except.error m => (r, some m)

-- Zero-padding used by strftime("%d.%m.%Y").
def pad2 (n : Nat) : String := if n < 10 then "0" ++ toString n else toString n

def pad4 (n : Nat) : String :=
  if n < 10 then "000" ++ toString n
  else if n < 100 then "00" ++ toString n
  else if n < 1000 then "0" ++ toString n
  else toString n

def fmtDate (d : BDate) : String := pad2 d.day ++ "." ++ pad2 d.month ++ "." ++ pad4 d.year

-- Record.__str__
def Record.toStr (r : Record) : String :=
  "Contact name: " ++ r.name ++ ", phones: " ++ String.intercalate ("; ") r.phones
    ++ ", emails: " ++ String.intercalate ("; ") r.emails
    ++ ", birthday: " ++ (match r.birthday with
                          | some d => fmtDate d
                          | none => "N/A")

-- ### AddressBook: an insertion-ordered mapping from name to Record,
-- modelling the Python dict underlying UserDict.

abbrev Book : Type := List (String × Record)

-- add_record: self.data[record.name.value] = record.  Assigning to an
-- existing key replaces the value in place, keeping the key position;
-- otherwise the entry is appended.
def AddressBook.add_record (b : Book) (r : Record) : Book :=
  if (List.any b fun e => e.1 == r.name)
  then List.map (fun e => if e.1 == r.name then (e.1, r) else e) b
  else b ++ [(r.name, r)]

-- find: self.data.get(name)
def AddressBook.find (b : Book) (n : String) : Option Record :=
  match List.find? (fun e => e.1 == n) b with
  | some e => some e.2
  | none => none

-- delete: del self.data[name] guarded by a membership test.
def AddressBook.delete (b : Book) (n : String) : Book :=
  List.eraseP (fun e => e.1 == n) b

-- Re-store a mutated record under its existing key (in Python the record
-- object inside the dict is mutated in place).
def AddressBook.updateAt (b : Book) (n : String) (r : Record) : Book :=
  List.map (fun e => if e.1 == n then (e.1, r) else e) b

-- get_upcoming_birthdays, iterating self.data.values() in map order; the
-- caller's clock is the explicit now argument.  A failing year replacement
-- raises, discarding the list built so far.
def upcomingFromRecords (rs : List Record) (days : Nat) (now : PDateTime) : Option (List Record) :=
  match rs with
  | [] => some []
  | r :: rest =>
      match r.birthday with
      | none => upcomingFromRecords rest days now
      | some b =>
          match replaceYear b now.year with
          | none => none
          | some nb =>
              match upcomingFromRecords rest days now with
              | none => none
              | some tail =>
                  if now.ts ≤ toOrdinal nb.year nb.month nb.day * 86400
                     ∧ toOrdinal nb.year nb.month nb.day * 86400 ≤ now.ts + days * 86400
                  then some (r :: tail) else some tail

def AddressBook.get_upcoming_birthdays (b : Book) (days : Nat) (now : PDateTime) : Option (List Record) :=
  upcomingFromRecords (List.map Prod.snd b) days now

-- ### Command handlers
-- A raised exception is modelled explicitly: input_error catches ValueError
-- only, so an IndexError escapes the wrapper (and the main loop, which has
-- no handler), terminating the program.

inductive PyErr where
  | valueError : String → PyErr
  | indexError : PyErr
deriving DecidableEq, Repr

-- A handler takes the argument list and the book and yields the book after
-- any (possibly partial) mutation plus either a returned string or an
-- escaping exception.
def Handler := List String → Book → Book × Except PyErr String

-- The messages of the ValueError raised by tuple unpacking.
def unpack_msg_exact (expected got : Nat) : String :=
  if got < expected
  then "not enough values to unpack (expected " ++ toString expected ++ ", got "
        ++ toString got ++ ")"
  else "too many values to unpack (expected " ++ toString expected ++ ")"

def unpack_msg_star (expected got : Nat) : String :=
  "not enough values to unpack (expected at least " ++ toString expected ++ ", got "
    ++ toString got ++ ")"

def okOr (err : Option String) (msg : String) : Except PyErr String :=
  match err with
  | some m => Except.error (PyErr.valueError m)
  | none => Except.ok msg

-- input_error: turn a ValueError escaping the body into a returned message.
def input_error (f : Handler) : Handler :=
  fun args book =>
    let r := f args book
    (r.1, match r.2 with
          | Except.error (PyErr.valueError m) => Except.ok m
          | x => x)

-- add: name, phone, *_ = args; create or reuse the record (the new record
-- is inserted before the phone is validated), then append the phone if the
-- phone string is nonempty.
def add_contact_raw : Handler :=
  fun args book =>
    match args with
    | name :: phone :: _ =>
        match AddressBook.find book name with
        | some record =>
            if phone != "" then
              let s := Record.add_phone record phone
              (AddressBook.updateAt book name s.1, okOr s.2 ("Contact updated."))
            else (book, Except.ok ("Contact updated."))
        | none =>
            let record := Record.init name
            let b1 := AddressBook.add_record book record
            if phone != "" then
              let s := Record.add_phone record phone
              (AddressBook.updateAt b1 name s.1, okOr s.2 ("Contact added."))
            else (b1, Except.ok ("Contact added."))
    | args => (book, Except.error (PyErr.valueError (unpack_msg_star 2 args.length)))

def add_contact : Handler := input_error add_contact_raw

-- change: name, old_phone, new_phone = args (exact unpacking).
def change_phone_raw : Handler :=
  fun args book =>
    match args with
    | [name, old_phone, new_phone] =>
        match AddressBook.find book name with
        | some record =>
            let s := Record.edit_phone record old_phone new_phone
            (AddressBook.updateAt book name s.1,
             okOr s.2 ("Phone number updated for contact " ++ name ++ "."))
        | none => (book, Except.ok ("Contact " ++ name ++ " not found."))
    | args => (book, Except.error (PyErr.valueError (unpack_msg_exact 3 args.length)))

def change_phone : Handler := input_error change_phone_raw

-- phone: name = args[0]; an empty argument list raises IndexError.
def show_phone_raw : Handler :=
  fun args book =>
    match args with
    | [] => (book, Except.error PyErr.indexError)
    | name :: _ =>
        match AddressBook.find book name with
        | some record =>
            (book, Except.ok (name ++ "\x27s phones: "
                              ++ String.intercalate (", ") record.phones))
        | none => (book, Except.ok ("Contact " ++ name ++ " not found."))

def show_phone : Handler := input_error show_phone_raw

-- all: header line plus one rendered line per record, in map order.
def list_lines (book : Book) : List String :=
  "Contacts in address book:" :: List.map (fun e => Record.toStr e.2) book

def list_contacts_raw : Handler :=
  fun _ book =>
    (book, Except.ok (if List.isEmpty book then "Address book is empty."
                      else String.intercalate ("\n") (list_lines book)))

def list_contacts : Handler := input_error list_contacts_raw

-- add-email: name, email, *_ = args.
def add_email_raw : Handler :=
  fun args book =>
    match args with
    | name :: email :: _ =>
        match AddressBook.find book name with
        | some record =>
            let s := Record.add_email record email
            (AddressBook.updateAt book name s.1,
             okOr s.2 ("Email " ++ email ++ " added for contact " ++ name ++ "."))
        | none => (book, Except.ok ("Contact " ++ name ++ " not found."))
    | args => (book, Except.error (PyErr.valueError (unpack_msg_star 2 args.length)))

def add_email : Handler := input_error add_email_raw

-- change-email: name, old_email, new_email = args (exact unpacking).
def change_email_raw : Handler :=
  fun args book =>
    match args with
    | [name, old_email, new_email] =>
        match AddressBook.find book name with
        | some record =>
            let s := Record.edit_email record old_email new_email
            (AddressBook.updateAt book name s.1,
             okOr s.2 ("Email updated for contact " ++ name ++ "."))
        | none => (book, Except.ok ("Contact " ++ name ++ " not found."))
    | args => (book, Except.error (PyErr.valueError (unpack_msg_exact 3 args.length)))

def change_email : Handler := input_error change_email_raw

-- show-email: name = args[0].
def show_email_raw : Handler :=
  fun args book =>
    match args with
    | [] => (book, Except.error PyErr.indexError)
    | name :: _ =>
        match AddressBook.find book name with
        | some record =>
            (book, Except.ok (name ++ "\x27s emails: "
                              ++ String.intercalate (", ") record.emails))
        | none => (book, Except.ok ("Contact " ++ name ++ " not found."))

def show_email : Handler := input_error show_email_raw

-- add-birthday: name, birthday = args (exact unpacking).
def add_birthday_handler_raw : Handler :=
  fun args book =>
    match args with
    | [name, birthday] =>
        match AddressBook.find book name with
        | some record =>
            let s := Record.add_birthday record birthday
            (AddressBook.updateAt book name s.1,
             okOr s.2 ("Birthday added for contact " ++ name ++ "."))
        | none => (book, Except.ok ("Contact " ++ name ++ " not found."))
    | args => (book, Except.error (PyErr.valueError (unpack_msg_exact 2 args.length)))

def add_birthday_handler : Handler := input_error add_birthday_handler_raw

-- show-birthday: name = args[0].
def show_birthday_raw : Handler :=
  fun args book =>
    match args with
    | [] => (book, Except.error PyErr.indexError)
    | name :: _ =>
        match AddressBook.find book name with
        | some record =>
            match record.birthday with
            | some d =>
                (book, Except.ok (name ++ "\x27s birthday is on " ++ fmtDate d ++ "."))
            | none => (book, Except.ok ("Birthday not set for contact " ++ name ++ "."))
        | none => (book, Except.ok ("Contact " ++ name ++ " not found."))

def show_birthday : Handler := input_error show_birthday_raw

-- ### Theorems

instance {ε α : Type} [DecidableEq ε] [DecidableEq α] : DecidableEq (Except ε α) := fun a b =>
  match a, b with
  | Except.ok x, Except.ok y =>
      if h : x = y then isTrue (h ▸ rfl) else isFalse (fun he => h (Except.ok.inj he))
  | Except.ok _, Except.error _ => isFalse (fun he => Except.noConfusion he)
  | Except.error _, Except.ok _ => isFalse (fun he => Except.noConfusion he)
  | Except.error x, Except.error y =>
      if h : x = y then isTrue (h ▸ rfl) else isFalse (fun he => h (Except.error.inj he))

-- The anchored match of \d{10} holds exactly on ten-digit strings.
theorem phone_validate_eq (v : String) :
    Phone.validate v = (decide (v.length = 10) && v.data.all isDig) := by
  rw [Bool.eq_iff_iff]
  unfold Phone.validate phone_regex
  simp only [fullmatch, Bool.and_eq_true, decide_eq_true_iff, List.isEmpty_iff,
    List.drop_eq_nil_iff, String.length]
  constructor
  · rintro ⟨⟨h1, h2⟩, h3⟩
    have hlen : v.data.length = 10 := Nat.le_antisymm h3 h1
    refine ⟨hlen, ?_⟩
    rw [List.take_of_length_le (Nat.le_of_eq hlen)] at h2
    exact h2
  · rintro ⟨h1, h2⟩
    refine ⟨⟨Nat.le_of_eq h1.symm, ?_⟩, Nat.le_of_eq h1⟩
    rw [List.take_of_length_le (Nat.le_of_eq h1)]
    exact h2

/-- Claim C2: constructing Phone(value) succeeds, returning the value,
exactly when the value consists of exactly 10 decimal digits, and for every
other string it fails with the phone ValidationError message. -/
theorem claim2_phone_validation (v : String) :
    (mkPhone v = Except.ok v ↔ v.length = 10 ∧ v.data.all isDig = true) ∧
    (mkPhone v = Except.ok v ∨ mkPhone v = Except.error phone_error_msg) := by
  unfold mkPhone
  rw [phone_validate_eq]
  by_cases h : v.length = 10 ∧ v.data.all isDig = true
  · simp [h.1, h.2]
  · rcases Decidable.not_and_iff_or_not.mp h with h1 | h1 <;> simp [h1]


-- ### Birthday shape analysis (claim C3)

-- A day or month token as strptime accepts it, described numerically: one
-- or two digits, value between 1 and hi.
def numToken (t : List Char) (hi : Nat) : Bool :=
  decide (t ≠ []) && decide (t.length ≤ 2) && t.all isDig
    && decide (1 ≤ digitsVal t) && decide (digitsVal t ≤ hi)

-- The claim reading of strict DD.MM.YYYY: exactly two digits for day and
-- month, exactly four for the year, denoting a valid calendar date.
def strict_ddmmyyyy (s : String) : Bool :=
  match splitDots s.data with
  | [ds, ms, ys] =>
      decide (ds.length = 2) && ds.all isDig && decide (ms.length = 2) && ms.all isDig
        && decide (ys.length = 4) && ys.all isDig
        && datetime_valid (digitsVal ys) (digitsVal ms) (digitsVal ds)
  | _ => false

-- The shape Birthday actually accepts, stated numerically: day and month
-- may be one or two digits (so unpadded forms pass), the year has exactly
-- four digits, and the triple is a valid calendar date.
def accepted_birthday (s : String) : Bool :=
  match splitDots s.data with
  | [ds, ms, ys] =>
      numToken ds 31 && numToken ms 12 && decide (ys.length = 4) && ys.all isDig
        && datetime_valid (digitsVal ys) (digitsVal ms) (digitsVal ds)
  | _ => false

theorem char_toNat_inj (c d : Char) : c = d ↔ c.toNat = d.toNat :=
  ⟨fun h => h ▸ rfl, fun h => Char.ext (UInt32.ext h)⟩

theorem isDig_iff (c : Char) : isDig c = true ↔ 48 ≤ c.toNat ∧ c.toNat ≤ 57 := by
  simp [isDig]

theorem digitsVal_single (c : Char) : digitsVal [c] = digitVal c := by
  simp [digitsVal, digitVal]

theorem digitsVal_pair (c1 c2 : Char) :
    digitsVal [c1, c2] = 10 * digitVal c1 + digitVal c2 := by
  simp [digitsVal]

-- The %d group matches exactly the numeric day tokens 1..31.
theorem dayShapeVal_eq (cs : List Char) :
    dayShapeVal cs = if numToken cs 31 then some (digitsVal cs) else none := by
  match cs with
  | [] => simp [dayShapeVal, numToken]
  | [c] =>
      have h : (isDig c && c != '0') = numToken [c] 31 := by
        rw [Bool.eq_iff_iff]
        simp only [numToken, digitsVal_single, Bool.and_eq_true, decide_eq_true_eq,
          bne_iff_ne, ne_eq, isDig_iff, digitVal, char_toNat_inj, List.all_cons,
          List.all_nil, Bool.and_true, List.length_cons, List.length_nil,
          List.cons_ne_nil, not_false_eq_true, true_and]
        have h0 : Char.toNat '0' = 48 := rfl
        rw [h0]
        omega
      rw [← h, digitsVal_single]
      rfl
  | [c1, c2] =>
      have h : ((c1 == '3' && (c2 == '0' || c2 == '1'))
                || ((c1 == '1' || c1 == '2') && isDig c2)
                || (c1 == '0' && isDig c2 && c2 != '0')) = numToken [c1, c2] 31 := by
        rw [Bool.eq_iff_iff]
        simp only [numToken, digitsVal_pair, Bool.and_eq_true, Bool.or_eq_true,
          decide_eq_true_eq, beq_iff_eq, bne_iff_ne, ne_eq, isDig_iff, digitVal,
          char_toNat_inj, List.all_cons, List.all_nil, Bool.and_true,
          List.length_cons, List.length_nil, List.cons_ne_nil, not_false_eq_true,
          true_and]
        have h0 : Char.toNat '0' = 48 := rfl
        have h1 : Char.toNat '1' = 49 := rfl
        have h2 : Char.toNat '2' = 50 := rfl
        have h3 : Char.toNat '3' = 51 := rfl
        rw [h0, h1, h2, h3]
        omega
      rw [← h, digitsVal_pair]
      rfl
  | c1 :: c2 :: c3 :: rest =>
      have h : numToken (c1 :: c2 :: c3 :: rest) 31 = false := by
        have hl : ¬((c1 :: c2 :: c3 :: rest).length ≤ 2) := by
          simp only [List.length_cons]
          omega
        simp [numToken, hl]
      rw [h]
      rfl

-- The %m group matches exactly the numeric month tokens 1..12.
theorem monthShapeVal_eq (cs : List Char) :
    monthShapeVal cs = if numToken cs 12 then some (digitsVal cs) else none := by
  match cs with
  | [] => simp [monthShapeVal, numToken]
  | [c] =>
      have h : (isDig c && c != '0') = numToken [c] 12 := by
        rw [Bool.eq_iff_iff]
        simp only [numToken, digitsVal_single, Bool.and_eq_true, decide_eq_true_eq,
          bne_iff_ne, ne_eq, isDig_iff, digitVal, char_toNat_inj, List.all_cons,
          List.all_nil, Bool.and_true, List.length_cons, List.length_nil,
          List.cons_ne_nil, not_false_eq_true, true_and]
        have h0 : Char.toNat '0' = 48 := rfl
        rw [h0]
        omega
      rw [← h, digitsVal_single]
      rfl
  | [c1, c2] =>
      have h : ((c1 == '1' && (c2 == '0' || c2 == '1' || c2 == '2'))
                || (c1 == '0' && isDig c2 && c2 != '0')) = numToken [c1, c2] 12 := by
        rw [Bool.eq_iff_iff]
        simp only [numToken, digitsVal_pair, Bool.and_eq_true, Bool.or_eq_true,
          decide_eq_true_eq, beq_iff_eq, bne_iff_ne, ne_eq, isDig_iff, digitVal,
          char_toNat_inj, List.all_cons, List.all_nil, Bool.and_true,
          List.length_cons, List.length_nil, List.cons_ne_nil, not_false_eq_true,
          true_and]
        have h0 : Char.toNat '0' = 48 := rfl
        have h1 : Char.toNat '1' = 49 := rfl
        have h2 : Char.toNat '2' = 50 := rfl
        rw [h0, h1, h2]
        omega
      rw [← h, digitsVal_pair]
      rfl
  | c1 :: c2 :: c3 :: rest =>
      have h : numToken (c1 :: c2 :: c3 :: rest) 12 = false := by
        have hl : ¬((c1 :: c2 :: c3 :: rest).length ≤ 2) := by
          simp only [List.length_cons]
          omega
        simp [numToken, hl]
      rw [h]
      rfl

-- The %Y group matches exactly four digits.
theorem yearShapeVal_eq (cs : List Char) :
    yearShapeVal cs = if (decide (cs.length = 4) && cs.all isDig)
                      then some (digitsVal cs) else none := by
  match cs with
  | [] => simp [yearShapeVal]
  | [c1] => simp [yearShapeVal]
  | [c1, c2] => simp [yearShapeVal]
  | [c1, c2, c3] => simp [yearShapeVal]
  | [c1, c2, c3, c4] =>
      cases h1 : isDig c1 <;> cases h2 : isDig c2 <;> cases h3 : isDig c3 <;>
        cases h4 : isDig c4 <;> simp [yearShapeVal, h1, h2, h3, h4]
  | c1 :: c2 :: c3 :: c4 :: c5 :: rest =>
      have h : ¬((c1 :: c2 :: c3 :: c4 :: c5 :: rest).length = 4) := by
        simp only [List.length_cons]
        omega
      simp [yearShapeVal, h]

-- Every failing construction yields the fixed ValueError message.
theorem mkBirthday_cases (v : String) :
    (mkBirthday v).isOk = true ∨ mkBirthday v = Except.error birthday_error_msg := by
  unfold mkBirthday
  cases strptime_dmY v with
  | none => right; rfl
  | some t =>
      obtain ⟨d, m, y⟩ := t
      cases hv : datetime_valid y m d
      · right; simp [hv]
      · left; simp [hv, Except.isOk, Except.toBool]

/-- Claim C3 (amended): constructing Birthday(value) succeeds exactly when
value splits on dots into day.month.year where day and month are one- or
two-digit numbers in range (so unpadded forms such as 9.6.1990 are also
accepted), the year has exactly four digits, and the triple denotes a valid
calendar date; any other string fails with the ValidationError message.
In particular 29.02.2021 fails and 29.02.2020 succeeds. -/
theorem claim3_birthday_validation (v : String) :
    (mkBirthday v).isOk = accepted_birthday v ∧
    (accepted_birthday v = false → mkBirthday v = Except.error birthday_error_msg) := by
  have main : (mkBirthday v).isOk = accepted_birthday v := by
    cases hs : splitDots v.data with
    | nil => simp [mkBirthday, strptime_dmY, accepted_birthday, hs, Except.isOk, Except.toBool]
    | cons ds t =>
      cases t with
      | nil => simp [mkBirthday, strptime_dmY, accepted_birthday, hs, Except.isOk, Except.toBool]
      | cons ms t2 =>
        cases t2 with
        | nil => simp [mkBirthday, strptime_dmY, accepted_birthday, hs, Except.isOk, Except.toBool]
        | cons ys t3 =>
          cases t3 with
          | cons a t4 => simp [mkBirthday, strptime_dmY, accepted_birthday, hs, Except.isOk, Except.toBool]
          | nil =>
            simp only [mkBirthday, strptime_dmY, accepted_birthday, hs,
              dayShapeVal_eq, monthShapeVal_eq, yearShapeVal_eq]
            cases hd : numToken ds 31 <;> cases hm : numToken ms 12 <;>
              cases hy : (decide (ys.length = 4) && ys.all isDig) <;>
              simp [hd, hm, hy] <;>
              cases hv : datetime_valid (digitsVal ys) (digitsVal ms) (digitsVal ds) <;>
              simp [hv, Except.isOk, Except.toBool]
  refine ⟨main, fun hf => ?_⟩
  rcases mkBirthday_cases v with hok | herr
  · rw [main, hf] at hok
    exact absurd hok (by simp)
  · exact herr

/-- Claim C3 counterexample: Birthday("9.6.1990") succeeds although
"9.6.1990" is not in strict DD.MM.YYYY shape, so acceptance is not limited
to the strict two-digit-day, two-digit-month shape the claim states. -/
theorem claim3_cex :
    (mkBirthday ("9.6.1990")).isOk = true ∧ strict_ddmmyyyy ("9.6.1990") = false := by
  constructor
  · rfl
  · rfl

/-- Claim C3 witness: the two dates singled out by the spec behave as
stated, via the amended theorem applied at those inputs. -/
theorem claim3_witness :
    (mkBirthday ("29.02.2021")).isOk = false ∧
    mkBirthday ("29.02.2021") = Except.error birthday_error_msg ∧
    (mkBirthday ("29.02.2020")).isOk = true := by
  refine ⟨?_, ?_, ?_⟩
  · exact ((claim3_birthday_validation ("29.02.2021")).1).trans (by rfl)
  · exact (claim3_birthday_validation ("29.02.2021")).2 (by rfl)
  · exact ((claim3_birthday_validation ("29.02.2020")).1).trans (by rfl)

/-- Claim C6: remove_phone removes exactly the first phone equal to the
argument, is a no-op (never an error) when no such phone exists, and in the
absent case applying it twice leaves the record unchanged both times. -/
theorem claim6_remove_phone (r : Record) (v : String) :
    (v ∉ r.phones →
      Record.remove_phone r v = r ∧
      Record.remove_phone (Record.remove_phone r v) v = r) ∧
    (v ∈ r.phones →
      ∃ l1 l2, v ∉ l1 ∧ r.phones = l1 ++ v :: l2 ∧
        Record.remove_phone r v = { r with phones := l1 ++ l2 }) := by
  constructor
  · intro hnot
    have hf : r.phones.find? (fun q => q == v) = none := by
      rw [List.find?_eq_none]
      intro x hx
      simp only [beq_iff_eq]
      intro he
      exact hnot (he ▸ hx)
    have h1 : Record.remove_phone r v = r := by
      unfold Record.remove_phone Record.find_phone
      rw [hf]
    rw [h1]
    exact ⟨rfl, h1⟩
  · intro hmem
    obtain ⟨l1, l2, hnotin, heq, herase⟩ := List.exists_erase_eq hmem
    refine ⟨l1, l2, hnotin, heq, ?_⟩
    unfold Record.remove_phone Record.find_phone
    cases hfind : r.phones.find? (fun q => q == v) with
    | none =>
        rw [List.find?_eq_none] at hfind
        exact absurd (by simp : (v == v) = true) (hfind v hmem)
    | some _ => simp [herase]

/-- Claim C6 witness: on a concrete record, removing an absent value twice
is the identity both times, and removing a present value removes exactly
its first occurrence. -/
theorem claim6_witness :
    Record.remove_phone
        (Record.remove_phone
          { name := "A", phones := ["1234567890"], emails := [], birthday := none }
          ("5555555555"))
        ("5555555555")
      = { name := "A", phones := ["1234567890"], emails := [], birthday := none } ∧
    ∃ l1 l2, ("1234567890" : String) ∉ l1 ∧
      ["1234567890"] = l1 ++ ("1234567890") :: l2 ∧
      Record.remove_phone
          { name := "A", phones := ["1234567890"], emails := [], birthday := none }
          ("1234567890")
        = { name := "A", phones := l1 ++ l2, emails := [], birthday := none } := by
  constructor
  · exact ((claim6_remove_phone _ _).1 (by decide)).2
  · obtain ⟨l1, l2, h1, h2, h3⟩ :=
      (claim6_remove_phone
        { name := "A", phones := ["1234567890"], emails := [], birthday := none }
        ("1234567890")).2 (by decide)
    exact ⟨l1, l2, h1, h2, h3⟩

/-- Claim C4: edit_phone(old, new) is a no-op when no phone equals old;
when one exists, the old phone is removed and the validated new phone is
appended; when new is invalid the call fails with the ValidationError
message while the old phone has already been removed (non-atomic edit).
The analogous property holds for edit_email. -/
theorem claim4_edit_nonatomic (r : Record) (o n : String) :
    (Record.find_phone r o = none → Record.edit_phone r o n = (r, none)) ∧
    (Record.find_phone r o ≠ none → Phone.validate n = true →
       Record.edit_phone r o n = ({ r with phones := r.phones.erase o ++ [n] }, none)) ∧
    (Record.find_phone r o ≠ none → Phone.validate n = false →
       Record.edit_phone r o n =
         ({ r with phones := r.phones.erase o }, some phone_error_msg)) ∧
    (Record.find_email r o = none → Record.edit_email r o n = (r, none)) ∧
    (Record.find_email r o ≠ none → Email.validate n = true →
       Record.edit_email r o n = ({ r with emails := r.emails.erase o ++ [n] }, none)) ∧
    (Record.find_email r o ≠ none → Email.validate n = false →
       Record.edit_email r o n =
         ({ r with emails := r.emails.erase o }, some email_error_msg)) := by
  refine ⟨?_, ?_, ?_, ?_, ?_, ?_⟩
  · intro h
    unfold Record.edit_phone
    rw [h]
  · intro h hv
    unfold Record.edit_phone
    cases hf : Record.find_phone r o with
    | none => exact absurd hf h
    | some _ => simp [Record.add_phone, hv]
  · intro h hv
    unfold Record.edit_phone
    cases hf : Record.find_phone r o with
    | none => exact absurd hf h
    | some _ => simp [Record.add_phone, hv]
  · intro h
    unfold Record.edit_email
    rw [h]
  · intro h hv
    unfold Record.edit_email
    cases hf : Record.find_email r o with
    | none => exact absurd hf h
    | some _ => simp [Record.add_email, hv]
  · intro h hv
    unfold Record.edit_email
    cases hf : Record.find_email r o with
    | none => exact absurd hf h
    | some _ => simp [Record.add_email, hv]

/-- Claim C4 witness: on a concrete record, the no-op, successful-edit and
failing non-atomic edit cases of the theorem, for phones and emails. -/
theorem claim4_witness :
    Record.edit_phone
        { name := "A", phones := ["1234567890"], emails := ["a@b.c"], birthday := none }
        ("9999999999") ("12")
      = ({ name := "A", phones := ["1234567890"], emails := ["a@b.c"], birthday := none },
         none) ∧
    Record.edit_phone
        { name := "A", phones := ["1234567890"], emails := ["a@b.c"], birthday := none }
        ("1234567890") ("0987654321")
      = ({ name := "A", phones := ["0987654321"], emails := ["a@b.c"], birthday := none },
         none) ∧
    Record.edit_phone
        { name := "A", phones := ["1234567890"], emails := ["a@b.c"], birthday := none }
        ("1234567890") ("12")
      = ({ name := "A", phones := [], emails := ["a@b.c"], birthday := none },
         some phone_error_msg) ∧
    Record.edit_email
        { name := "A", phones := ["1234567890"], emails := ["a@b.c"], birthday := none }
        ("a@b.c") ("bad")
      = ({ name := "A", phones := ["1234567890"], emails := [], birthday := none },
         some email_error_msg) := by
  refine ⟨?_, ?_, ?_, ?_⟩
  · exact (claim4_edit_nonatomic _ _ _).1 (by decide)
  · exact (claim4_edit_nonatomic _ _ _).2.1 (by decide) (by decide)
  · exact (claim4_edit_nonatomic _ _ _).2.2.1 (by decide) (by decide)
  · exact (claim4_edit_nonatomic _ _ _).2.2.2.2.2 (by decide) (by decide)

/-- Claim C7: from the empty book, add John 1234567890 answers
"Contact added."; a second add John 0987654321 answers "Contact updated."
and appends the second phone; phone John then lists both numbers
comma-joined. -/
theorem claim7_add_scenario :
    (add_contact ["John", "1234567890"] ([] : Book)).2 = Except.ok ("Contact added.") ∧
    (add_contact ["John", "0987654321"]
        (add_contact ["John", "1234567890"] ([] : Book)).1).2
      = Except.ok ("Contact updated.") ∧
    AddressBook.find
        (add_contact ["John", "0987654321"]
          (add_contact ["John", "1234567890"] ([] : Book)).1).1 ("John")
      = some { name := "John", phones := ["1234567890", "0987654321"],
               emails := [], birthday := none } ∧
    (show_phone ["John"]
        (add_contact ["John", "0987654321"]
          (add_contact ["John", "1234567890"] ([] : Book)).1).1).2
      = Except.ok ("John\x27s phones: 1234567890, 0987654321") := by
  refine ⟨rfl, rfl, rfl, rfl⟩

/-- Claim C5 counterexample: the change handler invoked with one argument,
fewer than its three-argument arity, does not crash: the tuple-unpacking
ValueError is caught by input_error and comes back as a returned message. -/
theorem claim5_cex :
    change_phone ["John"] ([] : Book)
      = (([] : Book), Except.ok ("not enough values to unpack (expected 3, got 1)")) := by
  refine rfl

/-- Claim C5 (amended): handlers that index args[0] (phone, show-email,
show-birthday) raise IndexError on an empty argument list, which
input_error does not catch, so the program crashes; handlers that
tuple-unpack their arguments (add, add-email, change, change-email,
add-birthday) raise ValueError on an insufficient argument count, which
input_error catches and returns as a message string instead of crashing. -/
theorem claim5_insufficient_args (b : Book) (x : String) :
    (show_phone [] b).2 = Except.error PyErr.indexError ∧
    (show_email [] b).2 = Except.error PyErr.indexError ∧
    (show_birthday [] b).2 = Except.error PyErr.indexError ∧
    (add_contact [] b).2 = Except.ok (unpack_msg_star 2 0) ∧
    (add_contact [x] b).2 = Except.ok (unpack_msg_star 2 1) ∧
    (add_email [] b).2 = Except.ok (unpack_msg_star 2 0) ∧
    (add_email [x] b).2 = Except.ok (unpack_msg_star 2 1) ∧
    (change_phone [] b).2 = Except.ok (unpack_msg_exact 3 0) ∧
    (change_phone [x] b).2 = Except.ok (unpack_msg_exact 3 1) ∧
    (change_phone [x, x] b).2 = Except.ok (unpack_msg_exact 3 2) ∧
    (change_email [x] b).2 = Except.ok (unpack_msg_exact 3 1) ∧
    (add_birthday_handler [] b).2 = Except.ok (unpack_msg_exact 2 0) ∧
    (add_birthday_handler [x] b).2 = Except.ok (unpack_msg_exact 2 1) :=
  ⟨rfl, rfl, rfl, rfl, rfl, rfl, rfl, rfl, rfl, rfl, rfl, rfl, rfl⟩

-- The window test of the claim: the stored birthday's month/day applied to
-- the current year, taken at midnight, lies between the now datetime and
-- now plus the requested number of days (inclusive on both ends).
def birthdayInWindow (now : PDateTime) (days : Nat) (r : Record) : Bool :=
  match r.birthday with
  | none => false
  | some b =>
      decide (now.ts ≤ toOrdinal now.year b.month b.day * 86400
              ∧ toOrdinal now.year b.month b.day * 86400 ≤ now.ts + days * 86400)

-- When no stored birthday clashes with the current year (the Feb 29 case),
-- the query is exactly a filter over the records in order.
theorem upcomingFromRecords_eq (rs : List Record) (days : Nat) (now : PDateTime)
    (h : ∀ r ∈ rs, ∀ b, r.birthday = some b → b.day ≤ daysInMonth now.year b.month) :
    upcomingFromRecords rs days now = some (rs.filter (birthdayInWindow now days)) := by
  induction rs with
  | nil => rfl
  | cons r rest ih =>
      have hrest := ih (fun q hq => h q (List.mem_cons_of_mem _ hq))
      cases hb : r.birthday with
      | none =>
          have hp : birthdayInWindow now days r = false := by
            simp [birthdayInWindow, hb]
          simp [upcomingFromRecords, hb, hrest, List.filter_cons, hp]
      | some b =>
          have hrep : replaceYear b now.year
              = some { year := now.year, month := b.month, day := b.day } := by
            unfold replaceYear
            rw [if_pos (h r (List.mem_cons_self _ _) b hb)]
          have hp : birthdayInWindow now days r
              = decide (now.ts ≤ toOrdinal now.year b.month b.day * 86400
                        ∧ toOrdinal now.year b.month b.day * 86400
                            ≤ now.ts + days * 86400) := by
            simp [birthdayInWindow, hb]
          by_cases hc : now.ts ≤ toOrdinal now.year b.month b.day * 86400
              ∧ toOrdinal now.year b.month b.day * 86400 ≤ now.ts + days * 86400
          · simp [upcomingFromRecords, hb, hrep, hrest, List.filter_cons, hp, hc]
          · simp [upcomingFromRecords, hb, hrep, hrest, List.filter_cons, hp, hc]

/-- Claim C1: provided no stored birthday is Feb 29 against an off-leap
current year (so the year substitution succeeds, see claim C9), the query
returns exactly the records whose birthday month/day applied to the current
year falls within [today, today + days] (today being the full now
datetime), in map-iteration order; a birthday occurrence already past is
excluded, with no roll-over to the next year. -/
theorem claim1_upcoming_birthdays (b : Book) (days : Nat) (now : PDateTime)
    (h : ∀ e ∈ b, Option.all
          (fun d => decide (d.day ≤ daysInMonth now.year d.month))
          (Prod.snd e).birthday = true) :
    AddressBook.get_upcoming_birthdays b days now
      = some ((List.map Prod.snd b).filter (birthdayInWindow now days)) := by
  unfold AddressBook.get_upcoming_birthdays
  apply upcomingFromRecords_eq
  intro r hr d hd
  obtain ⟨e, he, rfl⟩ := List.mem_map.mp hr
  have := h e he
  rw [hd] at this
  simpa using this

/-- Claim C1 witness: a concrete book where one birthday lies in the
window, one is already past this year, and one record has no birthday;
only the in-window record is returned. -/
theorem claim1_witness :
    AddressBook.get_upcoming_birthdays
        [("A", { name := "A", phones := [], emails := [],
                 birthday := some { year := 1990, month := 6, day := 15 } }),
         ("B", { name := "B", phones := [], emails := [],
                 birthday := some { year := 1990, month := 1, day := 1 } }),
         ("C", { name := "C", phones := [], emails := [], birthday := none })]
        7 { year := 2024, month := 6, day := 10, sod := 3600 }
      = some [{ name := "A", phones := [], emails := [],
                birthday := some { year := 1990, month := 6, day := 15 } }] := by
  rw [claim1_upcoming_birthdays _ _ _ (by decide)]
  rfl

-- A Feb 29 birthday in an off-leap current year forces the whole query to
-- fail, wherever the record sits in the book.
theorem upcomingFromRecords_none (rs : List Record) (days : Nat) (now : PDateTime)
    (r : Record) (hmem : r ∈ rs) (b : BDate) (hb : r.birthday = some b)
    (hm : b.month = 2) (hd : b.day = 29) (hl : isLeapYear now.year = false) :
    upcomingFromRecords rs days now = none := by
  induction rs with
  | nil => cases hmem
  | cons a rest ih =>
      rcases List.mem_cons.mp hmem with heq | hmem2
      · subst heq
        have hrep : replaceYear b now.year = none := by
          unfold replaceYear
          have h28 : daysInMonth now.year b.month = 28 := by
            rw [hm]
            simp [daysInMonth, hl]
          rw [if_neg]
          rw [h28, hd]
          omega
        simp [upcomingFromRecords, hb, hrep]
      · have hrec := ih hmem2
        cases hab : a.birthday with
        | none => simp [upcomingFromRecords, hab, hrec]
        | some b2 =>
            cases hrep : replaceYear b2 now.year with
            | none => simp [upcomingFromRecords, hab, hrep]
            | some nb => simp [upcomingFromRecords, hab, hrep, hrec]

/-- Claim C9: if the book holds a record whose birthday is February 29 and
the current year is not a leap year, get_upcoming_birthdays raises (returns
no list at all) instead of returning a list. -/
theorem claim9_feb29_error (b : Book) (days : Nat) (now : PDateTime)
    (k : String) (r : Record) (d : BDate)
    (hmem : (k, r) ∈ b) (hb : r.birthday = some d) (hm : d.month = 2)
    (hd : d.day = 29) (hl : isLeapYear now.year = false) :
    AddressBook.get_upcoming_birthdays b days now = none := by
  unfold AddressBook.get_upcoming_birthdays
  exact upcomingFromRecords_none _ days now r
    (List.mem_map.mpr ⟨(k, r), hmem, rfl⟩) d hb hm hd hl

/-- Claim C9 witness: a concrete book with a Feb 29 birthday queried in
2021 makes the query fail. -/
theorem claim9_witness :
    AddressBook.get_upcoming_birthdays
        [("A", { name := "A", phones := [], emails := [],
                 birthday := some { year := 2000, month := 2, day := 29 } })]
        7 { year := 2021, month := 3, day := 1, sod := 0 }
      = none := by
  exact claim9_feb29_error _ 7 _ ("A")
    { name := "A", phones := [], emails := [],
      birthday := some { year := 2000, month := 2, day := 29 } }
    { year := 2000, month := 2, day := 29 }
    (List.Mem.head _) rfl rfl rfl rfl

-- A rendered contact line never collides with the listing header.
theorem toStr_ne_header (r : Record) :
    Record.toStr r ≠ ("Contacts in address book:") := by
  intro h
  have hd := congrArg String.data h
  unfold Record.toStr at hd
  simp only [String.data_append] at hd
  simp at hd

/-- Claim C8: adding a record under a fresh name and listing all produces
exactly one line for that contact (provided no already-stored contact
renders to the identical line), and that line is the name, semicolon-joined
phones, semicolon-joined emails, and the birthday as DD.MM.YYYY or the
token N/A when unset. -/
theorem claim8_roundtrip_listing (b : Book) (r : Record)
    (hfresh : r.name ∉ List.map Prod.fst b)
    (huniq : ∀ e ∈ b, Record.toStr (Prod.snd e) ≠ Record.toStr r) :
    (list_lines (AddressBook.add_record b r)).count (Record.toStr r) = 1 ∧
    Record.toStr r
      = "Contact name: " ++ r.name ++ ", phones: "
          ++ String.intercalate ("; ") r.phones ++ ", emails: "
          ++ String.intercalate ("; ") r.emails ++ ", birthday: "
          ++ (match r.birthday with
              | some d => fmtDate d
              | none => "N/A") := by
  refine ⟨?_, rfl⟩
  have hany : (List.any b fun e => e.1 == r.name) = false := by
    rw [List.any_eq_false]
    intro e he
    simp only [beq_iff_eq]
    intro hcontra
    exact hfresh (List.mem_map.mpr ⟨e, he, hcontra⟩)
  have hmap0 : (List.map (fun e => Record.toStr e.2) b).count (Record.toStr r) = 0 := by
    rw [List.count_eq_zero]
    intro hmem
    obtain ⟨e, he, heq⟩ := List.mem_map.mp hmem
    exact huniq e he heq
  have hhead : (("Contacts in address book:" : String) == Record.toStr r) = false := by
    rw [beq_eq_false_iff_ne]
    exact fun hcontra => toStr_ne_header r hcontra.symm
  unfold AddressBook.add_record
  rw [hany]
  simp only [Bool.false_eq_true, if_false, list_lines, List.map_append,
    List.count_cons, List.count_append, hmap0, hhead]
  simp [hmap0]

/-- Claim C8 witness: adding one concrete contact to the empty book yields
exactly one listing line for it. -/
theorem claim8_witness :
    (list_lines (AddressBook.add_record ([] : Book)
        { name := "John", phones := ["1234567890"], emails := ["a@b.c"],
          birthday := some { year := 1990, month := 6, day := 15 } })).count
      (Record.toStr
        { name := "John", phones := ["1234567890"], emails := ["a@b.c"],
          birthday := some { year := 1990, month := 6, day := 15 } }) = 1 :=
  (claim8_roundtrip_listing ([] : Book) _ (by simp)
    (fun e he => absurd he (List.not_mem_nil e))).1

-- Replacing the value stored under an existing key keeps the key list.
theorem map_fst_update (b : Book) (nm : String) (r : Record) :
    List.map Prod.fst (List.map (fun e => if e.1 == nm then (e.1, r) else e) b)
      = List.map Prod.fst b := by
  rw [List.map_map]
  apply List.map_congr_left
  intro e _
  by_cases h : (e.1 == nm) = true <;> simp [h, Function.comp]

-- add_record under an already-present name never adds a key.
theorem add_record_keys_of_mem (b : Book) (r : Record)
    (hmem : r.name ∈ List.map Prod.fst b) :
    List.map Prod.fst (AddressBook.add_record b r) = List.map Prod.fst b := by
  have hany : (List.any b fun e => e.1 == r.name) = true := by
    rw [List.any_eq_true]
    obtain ⟨e, he, heq⟩ := List.mem_map.mp hmem
    exact ⟨e, he, by simp [heq]⟩
  unfold AddressBook.add_record
  rw [hany]
  simp only [if_true]
  exact map_fst_update b r.name r

-- After replacing the value stored under an existing key, looking the key
-- up yields the new record.
theorem find_update_eq (b : Book) (nm : String) (r : Record)
    (hmem : nm ∈ List.map Prod.fst b) :
    AddressBook.find (List.map (fun e => if e.1 == nm then (e.1, r) else e) b) nm
      = some r := by
  induction b with
  | nil => simp at hmem
  | cons a t ih =>
      unfold AddressBook.find at ih ⊢
      by_cases h : (a.1 == nm) = true
      · have he : a.1 = nm := beq_iff_eq.mp h
        simp [List.find?_cons, he]
      · have h2 : (a.1 == nm) = false := by simpa using h
        have hmem2 : nm ∈ List.map Prod.fst t := by
          rcases List.mem_map.mp hmem with ⟨e, he, heq⟩
          rcases List.mem_cons.mp he with rfl | het
          · exact absurd (by simp [heq]) h
          · exact List.mem_map.mpr ⟨e, het, heq⟩
        simp only [List.map_cons, h2, Bool.false_eq_true, if_false, List.find?_cons]
        exact ih hmem2

-- add_record under an already-present name stores the new record: the
-- subsequent lookup of that name returns it.
theorem find_add_record_of_mem (b : Book) (r : Record)
    (hmem : r.name ∈ List.map Prod.fst b) :
    AddressBook.find (AddressBook.add_record b r) r.name = some r := by
  have hany : (List.any b fun e => e.1 == r.name) = true := by
    rw [List.any_eq_true]
    obtain ⟨e, he, heq⟩ := List.mem_map.mp hmem
    exact ⟨e, he, by simp [heq]⟩
  unfold AddressBook.add_record
  rw [hany]
  simp only [if_true]
  exact find_update_eq b r.name r hmem

-- Books reachable from the empty book by add_record and delete.
inductive ReachableBook : Book → Prop where
  | empty : ReachableBook []
  | add (b : Book) (r : Record) : ReachableBook b → ReachableBook (AddressBook.add_record b r)
  | del (b : Book) (n : String) : ReachableBook b → ReachableBook (AddressBook.delete b n)

theorem reachable_inv (b : Book) (hreach : ReachableBook b) :
    (∀ e ∈ b, Prod.fst e = (Prod.snd e).name) ∧ (List.map Prod.fst b).Nodup := by
  induction hreach with
  | empty => exact ⟨fun e he => absurd he (List.not_mem_nil e), List.nodup_nil⟩
  | add b r hb ih =>
      obtain ⟨ihn, ihd⟩ := ih
      by_cases hany : (List.any b fun e => e.1 == r.name) = true
      · have hb1 : AddressBook.add_record b r
            = List.map (fun e => if e.1 == r.name then (e.1, r) else e) b := by
          unfold AddressBook.add_record
          rw [hany]
          simp only [if_true]
        rw [hb1]
        constructor
        · intro e he
          obtain ⟨e0, he0, heq⟩ := List.mem_map.mp he
          by_cases h0 : (e0.1 == r.name) = true
          · rw [if_pos h0] at heq
            rw [← heq]
            exact beq_iff_eq.mp h0
          · rw [if_neg h0] at heq
            rw [← heq]
            exact ihn e0 he0
        · rw [map_fst_update]
          exact ihd
      · have hany2 : (List.any b fun e => e.1 == r.name) = false :=
          Bool.not_eq_true _ ▸ Bool.of_not_eq_true hany
        have hb1 : AddressBook.add_record b r = b ++ [(r.name, r)] := by
          unfold AddressBook.add_record
          rw [hany2]
          simp only [Bool.false_eq_true, if_false]
        rw [hb1]
        constructor
        · intro e he
          rcases List.mem_append.mp he with h1 | h1
          · exact ihn e h1
          · rcases List.mem_singleton.mp h1 with rfl
            rfl
        · rw [List.map_append]
          rw [List.nodup_append]
          refine ⟨ihd, List.nodup_singleton _, ?_⟩
          intro x hx hx1
          rcases List.mem_singleton.mp hx1 with rfl
          obtain ⟨e, he, heq⟩ := List.mem_map.mp hx
          have := List.any_eq_false.mp hany2 e he
          rw [beq_iff_eq] at this
          exact this heq
  | del b n hb ih =>
      obtain ⟨ihn, ihd⟩ := ih
      constructor
      · intro e he
        exact ihn e (List.mem_of_mem_eraseP he)
      · exact List.Nodup.sublist (List.Sublist.map Prod.fst (List.eraseP_sublist b)) ihd

/-- Claim C10: in every book reachable from the empty book via add_record
and delete, each key equals the name of the record it maps to and the keys
are pairwise distinct; add_record with an already-present name replaces the
previously stored record — the key list is unchanged (no second entry) and
the name now maps to the new record. -/
theorem claim10_book_invariant (b : Book) (hreach : ReachableBook b) :
    (∀ e ∈ b, Prod.fst e = (Prod.snd e).name) ∧
    (List.map Prod.fst b).Nodup ∧
    (∀ r : Record, r.name ∈ List.map Prod.fst b →
        List.map Prod.fst (AddressBook.add_record b r) = List.map Prod.fst b) ∧
    (∀ r : Record, r.name ∈ List.map Prod.fst b →
        AddressBook.find (AddressBook.add_record b r) r.name = some r) :=
  ⟨(reachable_inv b hreach).1, (reachable_inv b hreach).2,
   fun r hmem => add_record_keys_of_mem b r hmem,
   fun r hmem => find_add_record_of_mem b r hmem⟩

/-- Claim C10 witness: the invariant holds for a concrete reachable book,
built by two adds and one delete from the empty book. -/
theorem claim10_witness :
    (∀ e ∈ AddressBook.delete
        (AddressBook.add_record
          (AddressBook.add_record ([] : Book)
            { name := "John", phones := ["1234567890"], emails := [], birthday := none })
          { name := "Mary", phones := [], emails := [], birthday := none })
        ("John"),
      Prod.fst e = (Prod.snd e).name) ∧
    (List.map Prod.fst (AddressBook.delete
        (AddressBook.add_record
          (AddressBook.add_record ([] : Book)
            { name := "John", phones := ["1234567890"], emails := [], birthday := none })
          { name := "Mary", phones := [], emails := [], birthday := none })
        ("John"))).Nodup ∧
    (∀ r : Record, r.name ∈ List.map Prod.fst (AddressBook.delete
        (AddressBook.add_record
          (AddressBook.add_record ([] : Book)
            { name := "John", phones := ["1234567890"], emails := [], birthday := none })
          { name := "Mary", phones := [], emails := [], birthday := none })
        ("John")) →
      List.map Prod.fst (AddressBook.add_record (AddressBook.delete
        (AddressBook.add_record
          (AddressBook.add_record ([] : Book)
            { name := "John", phones := ["1234567890"], emails := [], birthday := none })
          { name := "Mary", phones := [], emails := [], birthday := none })
        ("John")) r)
        = List.map Prod.fst (AddressBook.delete
            (AddressBook.add_record
              (AddressBook.add_record ([] : Book)
                { name := "John", phones := ["1234567890"], emails := [], birthday := none })
              { name := "Mary", phones := [], emails := [], birthday := none })
            ("John"))) ∧
    (∀ r : Record, r.name ∈ List.map Prod.fst (AddressBook.delete
        (AddressBook.add_record
          (AddressBook.add_record ([] : Book)
            { name := "John", phones := ["1234567890"], emails := [], birthday := none })
          { name := "Mary", phones := [], emails := [], birthday := none })
        ("John")) →
      AddressBook.find (AddressBook.add_record (AddressBook.delete
        (AddressBook.add_record
          (AddressBook.add_record ([] : Book)
            { name := "John", phones := ["1234567890"], emails := [], birthday := none })
          { name := "Mary", phones := [], emails := [], birthday := none })
        ("John")) r) r.name
        = some r) :=
  claim10_book_invariant _
    (ReachableBook.del _ _ (ReachableBook.add _ _ (ReachableBook.add _ _ ReachableBook.empty)))

/-- Claim C2 witness: the theorem applied at a ten-digit string and at a
shorter string. -/
theorem claim2_witness :
    mkPhone ("1234567890") = Except.ok ("1234567890") ∧
    mkPhone ("123") = Except.error phone_error_msg := by
  constructor
  · exact (claim2_phone_validation ("1234567890")).1.mpr (by decide)
  · refine (claim2_phone_validation ("123")).2.resolve_left (fun h => ?_)
    have := (claim2_phone_validation ("123")).1.mp h
    exact absurd this.1 (by decide)
